import Mathlib

/-!
Verification of the subdomain-reconnaissance orchestrator
(`recon.py`, `send_alert.py`).

The Python program is shallowly embedded: external collaborators
(subprocess stdout, the JSON parser of the standard library, the HTTP
endpoint, the filesystem, wall-clock timestamps) are supplied as explicit
inputs, and the observable actions of the program (subprocess
invocations, file writes, HTTP requests, temp-file handling, printed
status lines) are recorded as a trace of `Effect`s, in program order.
-/

/-- Observable actions performed by the program, in order of occurrence.
`writeTargets` is a write of the targets JSON file; `writeFile` is a
snapshot-store write; `log` is a printed status line. -/
inductive Effect where
  | toolRun (argv : List String)
  | writeFile (path content : String)
  | writeTargets
  | createTempFile (content : String)
  | removeTempFile
  | sendDocument (caption : String)
  | sendMessage (text : String)
  | log (msg : String)
deriving DecidableEq

/-- JSON values, as produced by `json.loads` on one line of bbot output. -/
inductive Json where
  | null
  | bool (b : Bool)
  | num (n : Int)
  | str (s : String)
  | arr (elems : List Json)
  | obj (fields : List (String × Json))

/-- Values that can end up inside the Python set `results` in
`run_all_tools`: the lines of the line-oriented tools are strings, while
`results.add(data.get("data"))` on the bbot branch can insert any
hashable JSON payload, including Python `None`. -/
inductive PyVal where
  | str (s : String)
  | pynone
  | bool (b : Bool)
  | num (n : Int)
deriving DecidableEq

/-- The string carried by a `PyVal`, when it is a string.  Python
`r.strip()` raises `AttributeError` exactly when this is `none`. -/
def strOf? : PyVal → Option String
  | PyVal.str s => some s
  | _ => none

/-- Python `dict.get key` on a parsed JSON object (`json.loads` keeps the
last value for a duplicated key). -/
def jsonGet (fields : List (String × Json)) (key : String) : Option Json :=
  (fields.filterMap (fun p => if p.1 = key then some p.2 else none)).getLast?

/-- Python `data.get("type") == "subdomain"`: true exactly when the field
is present and is the JSON string `"subdomain"`. -/
def isSubdomainTag : Option Json → Bool
  | some (Json.str s) => s = "subdomain"
  | _ => false

/-- The value inserted by `results.add(data.get("data"))`.  A missing
field or JSON `null` becomes Python `None`; an array or object is
unhashable, so `add` raises `TypeError`, which the inner
`except Exception: continue` swallows (modelled as `none`: nothing is
inserted). -/
def payloadVal : Option Json → Option PyVal
  | none => some PyVal.pynone
  | some Json.null => some PyVal.pynone
  | some (Json.bool b) => some (PyVal.bool b)
  | some (Json.num n) => some (PyVal.num n)
  | some (Json.str s) => some (PyVal.str s)
  | some (Json.arr _) => none
  | some (Json.obj _) => none

/-- Processing of one bbot stdout line (recon.py lines 83-89).  The line
is given by its `json.loads` outcome (`none` = the line is not valid
JSON, so the inner `except` skips it).  A non-object value makes
`data.get` raise `AttributeError`, also swallowed by the inner `except`. -/
def bbotProcessLine (results : Finset PyVal) (line : Option Json) : Finset PyVal :=
  match line with
  | some (Json.obj fields) =>
    if isSubdomainTag (jsonGet fields "type") then
      match payloadVal (jsonGet fields "data") with
      | some v => insert v results
      | none => results
    else results
  | _ => results

/-- Python `str.strip()`: drop leading and trailing whitespace
characters. -/
def pyStrip (s : String) : String :=
  String.mk (((s.data.dropWhile Char.isWhitespace).reverse.dropWhile
    Char.isWhitespace).reverse)

/-- The filter of the final comprehension (recon.py line 94):
`if r.strip() and '.' in r`. -/
def keepLine (r : String) : Bool := decide (pyStrip r ≠ "" ∧ '.' ∈ r.data)

/-- The comprehension `{r.strip() for r in results if r.strip() and '.' in r}`
(recon.py line 94) specialised to string entries. -/
def clean_results (lines : List String) : Finset String :=
  ((lines.filter keepLine).map pyStrip).toFinset

/-- The comprehension of recon.py line 94 on the actual `results` set:
it evaluates `r.strip()` on every element, so it raises `AttributeError`
as soon as any element is not a string (this exception is not caught
inside `run_all_tools`). -/
def clean_results_py (results : Finset PyVal) : Except String (Finset String) :=
  if ∀ v ∈ results, (strOf? v).isSome then
    Except.ok
      (((results.val.filterMap strOf?).filter (fun r => keepLine r = true)).map
        pyStrip).toFinset
  else
    Except.error "AttributeError"

/-- The four tool-path environment variables (recon.py lines 21-24);
`none` means the variable is unset, so the default name is used. -/
structure ToolEnv where
  subfinderPath : Option String
  amassPath : Option String
  findomainPath : Option String
  bbotPath : Option String
deriving DecidableEq

/-- `os.getenv('SUBFINDER_PATH', 'subfinder')` (recon.py line 21). -/
def SUBFINDER_PATH (e : ToolEnv) : String := e.subfinderPath.getD "subfinder"

/-- `os.getenv('AMASS_PATH', 'amass')` (recon.py line 22). -/
def AMASS_PATH (e : ToolEnv) : String := e.amassPath.getD "amass"

/-- `os.getenv('FINDOMAIN_PATH', 'findomain')` (recon.py line 23). -/
def FINDOMAIN_PATH (e : ToolEnv) : String := e.findomainPath.getD "findomain"

/-- `os.getenv('BBOT_PATH', 'bbot')` (recon.py line 24). -/
def BBOT_PATH (e : ToolEnv) : String := e.bbotPath.getD "bbot"

/-- Argument vector of the subfinder invocation (recon.py line 52). -/
def subfinderArgv (e : ToolEnv) (domain : String) : List String :=
  [SUBFINDER_PATH e, "-silent", "-d", domain]

/-- Argument vector of the amass invocation (recon.py line 61). -/
def amassArgv (e : ToolEnv) (domain : String) : List String :=
  [AMASS_PATH e, "enum", "-passive", "-norecursive", "-d", domain]

/-- Argument vector of the findomain invocation (recon.py line 70). -/
def findomainArgv (e : ToolEnv) (domain : String) : List String :=
  [FINDOMAIN_PATH e, "-t", domain, "-q"]

/-- Argument vector of the bbot invocation (recon.py line 80): the source
hardcodes the literal `'bbot'` here, so `BBOT_PATH` is never consulted. -/
def bbotArgv (_e : ToolEnv) (domain : String) : List String :=
  ["bbot", "-t", domain, "-f", "json"]

/-- Outcome of the four subprocess invocations for one domain, as
supplied by the outside world.  For the three line-oriented tools,
`none` means the invocation raised (spawn error or timeout) and
`some lines` is the captured stdout split into lines.  For bbot each
line is given by its `json.loads` outcome. -/
structure ToolOut where
  subfinder : Option (List String)
  amass : Option (List String)
  findomain : Option (List String)
  bbot : Option (List (Option Json))

/-- One of the three line-oriented tool blocks of `run_all_tools`
(recon.py lines 50-74): print the running line, invoke the subprocess,
and on success union the stdout lines into `results`; on failure log
and keep `results` unchanged. -/
def lineToolStep (name : String) (argv : List String) (domain : String)
    (out : Option (List String)) (results : Finset PyVal) :
    Finset PyVal × List Effect :=
  match out with
  | some lines =>
    (results ∪ (lines.map PyVal.str).toFinset,
     [Effect.log ("[+] Running " ++ name ++ " on " ++ domain), Effect.toolRun argv])
  | none =>
    (results,
     [Effect.log ("[+] Running " ++ name ++ " on " ++ domain), Effect.toolRun argv,
      Effect.log ("[!] " ++ name ++ " failed")])

/-- The bbot block of `run_all_tools` (recon.py lines 77-91): each
stdout line is parsed and processed independently. -/
def bbotStep (e : ToolEnv) (domain : String) (out : Option (List (Option Json)))
    (results : Finset PyVal) : Finset PyVal × List Effect :=
  match out with
  | some lines =>
    (lines.foldl bbotProcessLine results,
     [Effect.log ("[+] Running bbot on " ++ domain), Effect.toolRun (bbotArgv e domain)])
  | none =>
    (results,
     [Effect.log ("[+] Running bbot on " ++ domain), Effect.toolRun (bbotArgv e domain),
      Effect.log "[!] bbot failed"])

/-- `run_all_tools` (recon.py lines 45-95): run the four tools in order,
accumulate their contributions into one set, and finish with the
cleaning comprehension of line 94, which can itself raise. -/
def run_all_tools (e : ToolEnv) (out : ToolOut) (domain : String) :
    List Effect × Except String (Finset String) :=
  let s1 := lineToolStep "subfinder" (subfinderArgv e domain) domain out.subfinder ∅
  let s2 := lineToolStep "amass" (amassArgv e domain) domain out.amass s1.1
  let s3 := lineToolStep "findomain" (findomainArgv e domain) domain out.findomain s2.1
  let s4 := bbotStep e domain out.bbot s3.1
  (s1.2 ++ s2.2 ++ s3.2 ++ s4.2, clean_results_py s4.1)

/-- The filesystem under the output directory: a map from path to file
contents (`none` = the file does not exist). -/
def FS := String → Option String

/-- Writing one file, overwriting any previous contents. -/
def writeFS (fs : FS) (path content : String) : FS :=
  fun p => if p = path then some content else fs p

/-- `os.path.join` for the relative path segments used by this program:
a separator is inserted unless the left part already ends with one. -/
def pathJoin (a b : String) : String :=
  if a.endsWith "/" then a ++ b else a ++ "/" ++ b

/-- `os.path.join(OUTPUT_DIR, domain, 'latest.txt')` (recon.py lines 136
and 152). -/
def latestPath (outputDir domain : String) : String :=
  pathJoin (pathJoin outputDir domain) "latest.txt"

/-- `os.path.join(domain_dir, f'subs-{today}.txt')` (recon.py line 135). -/
def todayPath (outputDir domain today : String) : String :=
  pathJoin (pathJoin outputDir domain) ("subs-" ++ today ++ ".txt")

/-- `"\n".join(sorted(subdomains))` (recon.py lines 138, 142, 146). -/
def snapshotContent (subs : Finset String) : String :=
  "\n".intercalate (subs.sort (· ≤ ·))

/-- `save_results` (recon.py lines 129-148): write the sorted hostname
list to the dated file and to `latest.txt`, overwriting both.  The
`os.makedirs` call only creates directories and is not modelled as a
file change. -/
def save_results (outputDir today domain : String) (subs : Finset String) (fs : FS) :
    FS × List Effect :=
  let content := snapshotContent subs
  let fs1 := writeFS fs (todayPath outputDir domain today) content
  let fs2 := writeFS fs1 (latestPath outputDir domain) content
  (fs2,
   [Effect.writeFile (todayPath outputDir domain today) content,
    Effect.writeFile (latestPath outputDir domain) content,
    Effect.log ("[+] Saved " ++ toString subs.card ++ " subdomains to " ++
      todayPath outputDir domain today)])

/-- `get_previous_subs` (recon.py lines 150-156): the trimmed non-empty
lines of `latest.txt` if it exists, else the empty set. -/
def get_previous_subs (fs : FS) (outputDir domain : String) : Finset String :=
  match fs (latestPath outputDir domain) with
  | some content =>
    (((content.splitOn "\n").map pyStrip).filter (fun l => decide (l ≠ ""))).toFinset
  | none => ∅

/-- The Diff Engine: `new_subs = current_subs - previous_subs`
(recon.py line 221). -/
def newSubs (current previous : Finset String) : Finset String :=
  current \ previous

/-- Outside-world inputs of one notification attempt: whether the
document upload comes back without error, whether the fallback message
post comes back without error, and the formatted timestamps taken from
the wall clock (`now` is `%Y-%m-%d %H:%M:%S`, `nowStamp` is
`%Y-%m-%d_%H-%M-%S`). -/
structure NotifyEnv where
  uploadOk : Bool
  fallbackOk : Bool
  now : String
  nowStamp : String
deriving DecidableEq

/-- Contents of the temporary document built by the orchestrator's
`notify_telegram` (recon.py lines 107-110). -/
def tmpContentRecon (env : NotifyEnv) (domain : String) (new : Finset String) : String :=
  "🎯 New subdomains found for " ++ domain ++ ":\n\n" ++
  "\n".intercalate (new.sort (· ≤ ·)) ++
  "\n\n📊 Total new subdomains: " ++ toString new.card ++
  "\n⏰ Scan time: " ++ env.now

/-- Caption of the orchestrator's document upload (recon.py line 119). -/
def captionRecon (domain : String) (new : Finset String) : String :=
  "🔍 Found " ++ toString new.card ++ " new subdomains for " ++ domain

/-- The orchestrator's `notify_telegram` (recon.py lines 97-127): on an
empty set, return at once with no action; otherwise create the temporary
document and attempt the upload.  `os.remove` and the success line run
only when `send_document` did not raise; the `except` merely logs, so on
failure the temporary file is never removed.  There is no fallback
message in this version. -/
def notify_telegram_recon (env : NotifyEnv) (domain : String) (new : Finset String) :
    List Effect :=
  if new = ∅ then []
  else
    [Effect.createTempFile (tmpContentRecon env domain new),
     Effect.sendDocument (captionRecon domain new)] ++
    (if env.uploadOk then
      [Effect.removeTempFile,
       Effect.log ("[+] Notified Telegram about " ++ toString new.card ++ " new subdomains")]
    else
      [Effect.log "[!] Telegram notification failed"])

/-- `"=" * 50` (send_alert.py lines 82 and 85). -/
def sep50 : String := String.mk (List.replicate 50 '=')

/-- Contents of the temporary document built by the ad-hoc script's
`notify_telegram` (send_alert.py lines 78-86).  Python `sorted` on a
list of strings is embedded as an insertion sort by `≤`. -/
def tmpContentAlert (env : NotifyEnv) (domain : String) (new : List String) : String :=
  "🎯 NEW SUBDOMAINS DISCOVERED\n" ++
  "Domain: " ++ domain ++ "\n" ++
  "Scan Time: " ++ env.now ++ " UTC\n" ++
  "Total New Subdomains: " ++ toString new.length ++ "\n" ++
  sep50 ++ "\n\n" ++
  String.join ((new.insertionSort (· ≤ ·)).map (fun s => s ++ "\n")) ++
  "\n" ++ sep50 ++ "\n" ++
  "End of report - " ++ toString new.length ++ " subdomains found\n"

/-- Caption of the ad-hoc script's document upload (send_alert.py line 95). -/
def captionAlert (env : NotifyEnv) (domain : String) (new : List String) : String :=
  "🔍 Found " ++ toString new.length ++ " new subdomains for " ++ domain ++
  "\n📅 Scan: " ++ env.nowStamp

/-- The fallback plain message of the ad-hoc script (send_alert.py
line 105). -/
def fallback_message (domain : String) (n : Nat) : String :=
  "🎯 Found " ++ toString n ++ " new subdomains for " ++ domain ++
  "\n⚠️ File upload failed, but scan completed successfully!"

/-- The ad-hoc script's `notify_telegram` (send_alert.py lines 68-112):
on an empty list, log and return with no further action; otherwise
create the temporary document and attempt the upload.  `os.remove` runs
only when `raise_for_status` did not raise; on failure the temporary
file is never removed and a fallback plain message is attempted (the
post itself is issued whether or not it then succeeds). -/
def notify_telegram_alert (env : NotifyEnv) (domain : String) (new : List String) :
    List Effect :=
  if new = [] then [Effect.log "[!] No new subdomains to send."]
  else
    [Effect.createTempFile (tmpContentAlert env domain new),
     Effect.sendDocument (captionAlert env domain new)] ++
    (if env.uploadOk then
      [Effect.removeTempFile,
       Effect.log ("[+] Sent file with " ++ toString new.length ++
         " new subdomains to Telegram")]
    else
      [Effect.log "[!] Telegram file upload failed",
       Effect.sendMessage (fallback_message domain new.length)] ++
      (if env.fallbackOk then
        [Effect.log "[+] Sent fallback message to Telegram"]
      else
        [Effect.log "[!] Fallback message also failed"]))

/-- One entry of the target list.  `domain` is `none` when the key is
absent (`target.get('domain')`); `enabled` is the truthiness of
`target.get('enabled', False)`. -/
structure Target where
  domain : Option String
  enabled : Bool
  last_scanned : Option String
  description : Option String
deriving DecidableEq

/-- The deserialised targets document; an absent or non-list `targets`
key behaves like the empty list (the optional `config` key is ignored
by the program). -/
structure TargetsData where
  targets : List Target
deriving DecidableEq

/-- State of the targets JSON file: absent, present but not valid JSON,
or present with parsed contents. -/
inductive TargetsFile where
  | missing
  | malformed
  | valid (data : TargetsData)
deriving DecidableEq

/-- The sample entry written by `create_sample_targets`
(recon.py lines 160-169): note `"enabled": True`. -/
def sample_target : Target :=
  { domain := some "example.com", enabled := true, last_scanned := none,
    description := some "Sample target domain" }

/-- The sample document written by `create_sample_targets`. -/
def sample_targets : TargetsData := ⟨[sample_target]⟩

/-- `create_sample_targets` (recon.py lines 158-175): if the targets
file does not exist, write the sample document (with its enabled
`example.com` entry) and log; otherwise do nothing. -/
def create_sample_targets : TargetsFile → TargetsFile × List Effect
  | TargetsFile.missing =>
    (TargetsFile.valid sample_targets,
     [Effect.writeTargets, Effect.log "[+] Created sample targets file"])
  | tf => (tf, [])

/-- Outside-world inputs of one run: per-domain subprocess outcomes, the
configured output directory, the dates/timestamps read from the clock,
and the notification outcomes. -/
structure Oracle where
  tools : String → ToolOut
  outputDir : String
  today : String
  utcnow : String
  notifyEnv : NotifyEnv

/-- The body of the per-target loop of `main` (recon.py lines 197-236):
skip entries without a (non-empty) domain or with a falsy enabled flag;
otherwise run the scan cycle.  Inside the `try`, the only modelled
raise source is the aggregation step of `run_all_tools`; on a caught
error the target is returned unchanged (in particular `last_scanned` is
not touched, since line 233 is the last statement of the `try`). -/
def process_target (e : ToolEnv) (o : Oracle) (fs : FS) (t : Target) :
    FS × Target × List Effect :=
  match t.domain with
  | none => (fs, t, [Effect.log "[!] Skipping target with no domain"])
  | some d =>
    if d = "" then (fs, t, [Effect.log "[!] Skipping target with no domain"])
    else if t.enabled = false then
      (fs, t, [Effect.log ("[-] Skipping disabled target: " ++ d)])
    else
      let pre := [Effect.log ("\n[+] Scanning " ++ d ++ "...")]
      let tr := run_all_tools e (o.tools d) d
      match tr.2 with
      | Except.error err =>
        (fs, t, pre ++ tr.1 ++ [Effect.log ("[!] Error scanning " ++ d ++ ": " ++ err)])
      | Except.ok current =>
        let countLog := [Effect.log ("[+] Found " ++ toString current.card ++
          " total subdomains")]
        let previous := get_previous_subs fs o.outputDir d
        let prevLog := [Effect.log ("[+] Previous scan had " ++ toString previous.card ++
          " subdomains")]
        let nw := newSubs current previous
        let notifyEffs :=
          if nw ≠ ∅ then
            Effect.log ("[+] Found " ++ toString nw.card ++ " new subdomains!") ::
              notify_telegram_recon o.notifyEnv d nw
          else
            [Effect.log ("[=] No new subdomains found for " ++ d)]
        let sv := save_results o.outputDir o.today d current fs
        (sv.1, { t with last_scanned := some (o.utcnow ++ "Z") },
         pre ++ tr.1 ++ countLog ++ prevLog ++ notifyEffs ++ sv.2)

/-- Folding step of the per-target loop: thread the filesystem, collect
the (possibly updated) targets, and append the effects. -/
def scanStep (e : ToolEnv) (o : Oracle) (acc : FS × List Target × List Effect)
    (t : Target) : FS × List Target × List Effect :=
  let r := process_target e o acc.1 t
  (r.1, acc.2.1 ++ [r.2.1], acc.2.2 ++ r.2.2)

/-- `main` (recon.py lines 177-245): create the sample file if the
targets file is absent, load the targets (a load failure logs and
returns), loop over the targets, and finally rewrite the targets file. -/
def main_run (e : ToolEnv) (o : Oracle) (tf : TargetsFile) (fs : FS) :
    TargetsFile × FS × List Effect :=
  let start := [Effect.log "🔍 Starting subdomain reconnaissance..."]
  let cr := create_sample_targets tf
  match cr.1 with
  | TargetsFile.missing =>
    (TargetsFile.missing, fs, start ++ cr.2 ++ [Effect.log "[!] Targets file not found"])
  | TargetsFile.malformed =>
    (TargetsFile.malformed, fs,
     start ++ cr.2 ++ [Effect.log "[!] Invalid JSON in targets file"])
  | TargetsFile.valid data =>
    if data.targets = [] then
      (TargetsFile.valid data, fs,
       start ++ cr.2 ++ [Effect.log "[!] No targets found in targets file"])
    else
      let res := data.targets.foldl (scanStep e o) (fs, [], [])
      (TargetsFile.valid ⟨res.2.1⟩, res.1,
       start ++ cr.2 ++ res.2.2 ++
       [Effect.writeTargets,
        Effect.log "[+] Updated targets file with scan timestamps",
        Effect.log "\n✅ Reconnaissance complete!"])

/-- Default tool paths: no environment overrides set. -/
def e₀ : ToolEnv := ⟨none, none, none, none⟩

/-- An empty output directory: no snapshot file exists yet. -/
def fs₀ : FS := fun _ => none

/-- Notification outcomes where both posts come back without error. -/
def envOk : NotifyEnv := ⟨true, true, "2024-01-01 00:00:00", "2024-01-01_00-00-00"⟩

/-- Notification outcomes where the document upload fails. -/
def envFail : NotifyEnv := ⟨false, true, "2024-01-01 00:00:00", "2024-01-01_00-00-00"⟩

/-- A run where subfinder finds one hostname and the other tools return
nothing. -/
def o₀ : Oracle :=
  ⟨fun _ => ⟨some ["a.example.com"], some [], some [], some []⟩,
   "./output/", "2024-01-01", "2024-01-01T00:00:00", envOk⟩

/-- A run where bbot emits the single line `{"type": "subdomain"}`,
a valid JSON object tagged as a subdomain record but lacking the
`data` field. -/
def o₃ : Oracle :=
  ⟨fun _ => ⟨some [], some [], some [], some [some (Json.obj [("type", Json.str "subdomain")])]⟩,
   "./output/", "2024-01-01", "2024-01-01T00:00:00", envOk⟩

/-- An enabled target for `example.com`, never scanned before. -/
def t₁ : Target := ⟨some "example.com", true, none, none⟩

/-- The subprocess outcomes of the run `o₃`. -/
def bbotCrashOut : ToolOut :=
  ⟨some [], some [], some [], some [some (Json.obj [("type", Json.str "subdomain")])]⟩

/-- C1: the per-domain scan cycle computes the new-subdomain set as pure
set difference `current − previous`: it never contains an element of
`previous`, and it is empty whenever `current ⊆ previous`. -/
theorem diff_engine_set_difference (current previous : Finset String) :
    newSubs current previous = current \ previous ∧
    (∀ x ∈ previous, x ∉ newSubs current previous) ∧
    (current ⊆ previous → newSubs current previous = ∅) := by
  refine ⟨rfl, ?_, ?_⟩
  · intro x hx hmem
    exact (Finset.mem_sdiff.mp hmem).2 hx
  · intro hsub
    exact Finset.sdiff_eq_empty_iff_subset.mpr hsub

/-- Witness for C1 at concrete sets: current ⊆ previous gives an empty
diff. -/
theorem diff_engine_set_difference_witness :
    newSubs {"a.example.com"} {"a.example.com", "b.example.com"} = ∅ :=
  (diff_engine_set_difference {"a.example.com"} {"a.example.com", "b.example.com"}).2.2
    (by decide)

/-- C6: a bbot line that is not valid JSON, or whose object lacks the
`type` field, is indeed skipped silently; but a line tagged
`"type": "subdomain"` that lacks the `data` field is NOT skipped: it
inserts Python `None` into the result set, and the aggregation
comprehension of line 94 then raises `AttributeError`, failing the whole
domain scan — contradicting both the spec and the silent-skip intent of
the inner `except Exception: continue`. -/
theorem bbot_missing_data_field_fails_scan :
    bbotProcessLine ∅ none = ∅ ∧
    bbotProcessLine ∅ (some (Json.obj [("data", Json.str "x.example.com")])) = ∅ ∧
    bbotProcessLine ∅
        (some (Json.obj [("type", Json.str "subdomain"), ("data", Json.str "x.example.com")]))
      = {PyVal.str "x.example.com"} ∧
    bbotProcessLine ∅ (some (Json.obj [("type", Json.str "subdomain")])) = {PyVal.pynone} ∧
    clean_results_py {PyVal.pynone} = Except.error "AttributeError" ∧
    (run_all_tools e₀ bbotCrashOut "example.com").2 = Except.error "AttributeError" :=
  ⟨rfl, rfl, rfl, rfl, rfl, rfl⟩

/-- C8: the subfinder/amass/findomain paths are taken from the
environment overrides, but the bbot subprocess is always invoked as the
literal `'bbot'` (recon.py line 80), even though `BBOT_PATH` is read
from the environment: the override is ignored. -/
theorem bbot_path_override_ignored :
    SUBFINDER_PATH ⟨some "/opt/subfinder", none, none, some "/opt/bbot"⟩ = "/opt/subfinder" ∧
    subfinderArgv ⟨some "/opt/subfinder", none, none, some "/opt/bbot"⟩ "example.com"
      = ["/opt/subfinder", "-silent", "-d", "example.com"] ∧
    AMASS_PATH ⟨none, some "/opt/amass", none, some "/opt/bbot"⟩ = "/opt/amass" ∧
    FINDOMAIN_PATH ⟨none, none, some "/opt/findomain", some "/opt/bbot"⟩ = "/opt/findomain" ∧
    BBOT_PATH ⟨some "/opt/subfinder", none, none, some "/opt/bbot"⟩ = "/opt/bbot" ∧
    bbotArgv ⟨some "/opt/subfinder", none, none, some "/opt/bbot"⟩ "example.com"
      = ["bbot", "-t", "example.com", "-f", "json"] ∧
    Effect.toolRun ["bbot", "-t", "example.com", "-f", "json"] ∈
      (run_all_tools ⟨some "/opt/subfinder", none, none, some "/opt/bbot"⟩
        (o₀.tools "example.com") "example.com").1 := by
  refine ⟨rfl, rfl, rfl, rfl, rfl, rfl, ?_⟩
  decide

/-- C9: writing the snapshot twice with the same hostname set and the
same date leaves the `latest` file byte-for-byte identical to after the
first write. -/
theorem save_results_latest_idempotent (outputDir today domain : String)
    (subs : Finset String) (fs : FS) :
    (save_results outputDir today domain subs
        (save_results outputDir today domain subs fs).1).1 (latestPath outputDir domain) =
      (save_results outputDir today domain subs fs).1 (latestPath outputDir domain) ∧
    (save_results outputDir today domain subs fs).1 (latestPath outputDir domain) =
      some (snapshotContent subs) := by
  constructor <;> simp [save_results, writeFS]

/-- C10: with an empty new-hostname collection both notifiers return at
once: the orchestrator's performs no action at all, and the ad-hoc
script's only prints a status line — neither creates a temporary file,
uploads a document, or posts a message. -/
theorem empty_new_set_notify_noop (env : NotifyEnv) (domain : String) :
    notify_telegram_recon env domain ∅ = [] ∧
    notify_telegram_alert env domain []
      = [Effect.log "[!] No new subdomains to send."] := by
  constructor <;> simp [notify_telegram_recon, notify_telegram_alert]

/-- C7: on a collection of raw tool-output lines (all entries strings),
the comprehension of recon.py line 94 succeeds, and the resulting
hostname set holds exactly the trimmed forms of the lines that are
non-empty after trimming and contain a `.` character. -/
theorem aggregator_line_filter (lines : List String) (s : String) :
    clean_results_py ((lines.map PyVal.str).toFinset) = Except.ok (clean_results lines) ∧
    (s ∈ clean_results lines ↔
      ∃ r ∈ lines, pyStrip r = s ∧ pyStrip r ≠ "" ∧ '.' ∈ r.data) := by
  constructor
  · have hall : ∀ v ∈ (lines.map PyVal.str).toFinset, (strOf? v).isSome := by
      intro v hv
      simp only [List.mem_toFinset, List.mem_map] at hv
      obtain ⟨r, _, rfl⟩ := hv
      rfl
    rw [clean_results_py, if_pos hall]
    congr 1
    ext t
    simp only [clean_results, Multiset.mem_toFinset, Multiset.mem_map, Multiset.mem_filter,
      Multiset.mem_filterMap, Finset.mem_val, List.mem_toFinset, List.mem_map,
      List.mem_filter]
    constructor
    · rintro ⟨r, ⟨⟨v, ⟨r0, hr0, rfl⟩, hsome⟩, hkeep⟩, rfl⟩
      obtain rfl : r0 = r := by simpa [strOf?] using hsome
      exact ⟨r0, ⟨hr0, hkeep⟩, rfl⟩
    · rintro ⟨r, ⟨hr, hkeep⟩, rfl⟩
      exact ⟨r, ⟨⟨PyVal.str r, ⟨r, hr, rfl⟩, rfl⟩, hkeep⟩, rfl⟩
  · simp only [clean_results, List.mem_toFinset, List.mem_map, List.mem_filter, keepLine,
      decide_eq_true_eq]
    constructor
    · rintro ⟨r, ⟨hr, hne, hdot⟩, rfl⟩
      exact ⟨r, hr, rfl, hne, hdot⟩
    · rintro ⟨r, hr, rfl, hne, hdot⟩
      exact ⟨r, ⟨hr, hne, hdot⟩, rfl⟩

/-- True exactly on plain-message posts. -/
def isSendMessage : Effect → Bool
  | Effect.sendMessage _ => true
  | _ => false

/-- C3 counterexample: with the non-empty set `{"x.example.com"}` and a
failing upload, both notifiers create the temporary document and attempt
the upload, but neither ever removes the temporary file — it remains
after the attempt, contradicting the claimed cleanup on every failure
path. -/
theorem temp_file_left_on_upload_failure :
    Effect.createTempFile (tmpContentRecon envFail "example.com" {"x.example.com"}) ∈
      notify_telegram_recon envFail "example.com" {"x.example.com"} ∧
    Effect.sendDocument (captionRecon "example.com" {"x.example.com"}) ∈
      notify_telegram_recon envFail "example.com" {"x.example.com"} ∧
    Effect.removeTempFile ∉ notify_telegram_recon envFail "example.com" {"x.example.com"} ∧
    Effect.createTempFile (tmpContentAlert envFail "example.com" ["x.example.com"]) ∈
      notify_telegram_alert envFail "example.com" ["x.example.com"] ∧
    Effect.removeTempFile ∉ notify_telegram_alert envFail "example.com" ["x.example.com"] := by
  refine ⟨?_, ?_, ?_, ?_, ?_⟩ <;>
    simp [notify_telegram_recon, notify_telegram_alert, envFail]

/-- C3 amended: with a non-empty new-hostname set, both notifiers create
the temporary document and attempt the upload; the temporary file is
deleted afterwards exactly when the upload succeeded — on a failed
upload it is never removed. -/
theorem temp_file_removed_iff_upload_ok (env : NotifyEnv) (domain : String)
    (newF : Finset String) (newL : List String) (h1 : newF ≠ ∅) (h2 : newL ≠ []) :
    (Effect.createTempFile (tmpContentRecon env domain newF) ∈
      notify_telegram_recon env domain newF) ∧
    (Effect.sendDocument (captionRecon domain newF) ∈
      notify_telegram_recon env domain newF) ∧
    (Effect.removeTempFile ∈ notify_telegram_recon env domain newF ↔ env.uploadOk = true) ∧
    (Effect.createTempFile (tmpContentAlert env domain newL) ∈
      notify_telegram_alert env domain newL) ∧
    (Effect.sendDocument (captionAlert env domain newL) ∈
      notify_telegram_alert env domain newL) ∧
    (Effect.removeTempFile ∈ notify_telegram_alert env domain newL ↔ env.uploadOk = true) := by
  simp only [notify_telegram_recon, notify_telegram_alert, if_neg h1, if_neg h2]
  cases hu : env.uploadOk <;> cases hf : env.fallbackOk <;> simp

/-- Witness for C3 amended: with a successful upload the orchestrator's
notifier does remove the temporary file. -/
theorem temp_file_removed_iff_upload_ok_witness :
    Effect.removeTempFile ∈ notify_telegram_recon envOk "example.com" {"x.example.com"} :=
  ((temp_file_removed_iff_upload_ok envOk "example.com" {"x.example.com"} ["x.example.com"]
    (by decide) (by decide)).2.2.1).mpr rfl

/-- C4 counterexample: the notifier invoked by the per-domain scan cycle
(recon.py's own `notify_telegram`) attempts the upload and, when it
fails, posts no fallback plain-text message at all — it only logs. -/
theorem orchestrator_notifier_no_fallback :
    Effect.sendDocument (captionRecon "example.com" {"x.example.com"}) ∈
      notify_telegram_recon envFail "example.com" {"x.example.com"} ∧
    (notify_telegram_recon envFail "example.com" {"x.example.com"}).filter isSendMessage
      = [] ∧
    notify_telegram_recon envFail "example.com" {"x.example.com"}
      = [Effect.createTempFile (tmpContentRecon envFail "example.com" {"x.example.com"}),
         Effect.sendDocument (captionRecon "example.com" {"x.example.com"}),
         Effect.log "[!] Telegram notification failed"] := by
  refine ⟨?_, ?_, ?_⟩ <;>
    simp [notify_telegram_recon, envFail, isSendMessage]

/-- C4 amended: on a failed upload with a non-empty new-hostname list,
the ad-hoc script's notifier (send_alert.py) attempts a fallback plain
message whose text mentions the count of new hostnames and the domain;
the orchestrator's own notifier — the one the per-domain scan cycle
invokes — never posts a plain message. -/
theorem fallback_only_in_adhoc_script (env : NotifyEnv) (domain : String)
    (newL : List String) (newF : Finset String) (h : newL ≠ [])
    (hup : env.uploadOk = false) :
    (Effect.sendMessage (fallback_message domain newL.length) ∈
      notify_telegram_alert env domain newL) ∧
    ((toString newL.length).data <:+: (fallback_message domain newL.length).data) ∧
    (domain.data <:+: (fallback_message domain newL.length).data) ∧
    ((notify_telegram_recon env domain newF).filter isSendMessage = []) := by
  refine ⟨?_, ?_, ?_, ?_⟩
  · simp only [notify_telegram_alert, if_neg h, hup]
    cases env.fallbackOk <;> simp
  · refine ⟨"🎯 Found ".data,
      (" new subdomains for " ++ domain ++
        "\n⚠️ File upload failed, but scan completed successfully!").data, ?_⟩
    simp [fallback_message, String.data_append]
  · refine ⟨("🎯 Found " ++ toString newL.length ++ " new subdomains for ").data,
      "\n⚠️ File upload failed, but scan completed successfully!".data, ?_⟩
    simp [fallback_message, String.data_append]
  · rcases eq_or_ne newF ∅ with hF | hF
    · simp [notify_telegram_recon, hF]
    · simp only [notify_telegram_recon, if_neg hF, hup]
      simp [isSendMessage]

/-- Witness for C4 amended: at the concrete failing upload with one new
hostname, the fallback message is posted by the ad-hoc script's
notifier. -/
theorem fallback_only_in_adhoc_script_witness :
    Effect.sendMessage (fallback_message "example.com" 1) ∈
      notify_telegram_alert envFail "example.com" ["x.example.com"] :=
  (fallback_only_in_adhoc_script envFail "example.com" ["x.example.com"] ∅
    (by decide) rfl).1

/-- True exactly on subprocess invocations. -/
def isToolRun : Effect → Bool
  | Effect.toolRun _ => true
  | _ => false

/-- True exactly on snapshot-store file writes. -/
def isWriteFile : Effect → Bool
  | Effect.writeFile _ _ => true
  | _ => false

/-- True exactly on document-upload attempts. -/
def isSendDocument : Effect → Bool
  | Effect.sendDocument _ => true
  | _ => false

/-- Every tool block records its subprocess invocation in the trace,
whether or not the invocation then fails. -/
theorem toolRun_mem_lineToolStep (name : String) (argv : List String) (domain : String)
    (out : Option (List String)) (results : Finset PyVal) :
    Effect.toolRun argv ∈ (lineToolStep name argv domain out results).2 := by
  cases out <;> simp [lineToolStep]

/-- `run_all_tools` always invokes subfinder on the domain. -/
theorem subfinder_toolRun_mem (e : ToolEnv) (out : ToolOut) (d : String) :
    Effect.toolRun (subfinderArgv e d) ∈ (run_all_tools e out d).1 := by
  simp only [run_all_tools, List.mem_append]
  exact Or.inl (Or.inl (Or.inl (toolRun_mem_lineToolStep _ _ _ _ _)))

/-- Processing an enabled target with a non-empty domain always invokes
subfinder on that domain, whatever the scan outcome. -/
theorem process_target_toolRun (e : ToolEnv) (o : Oracle) (fs : FS) (t : Target)
    (d : String) (hd : t.domain = some d) (hne : d ≠ "") (he : t.enabled = true) :
    Effect.toolRun (subfinderArgv e d) ∈ (process_target e o fs t).2.2 := by
  have h := subfinder_toolRun_mem e (o.tools d) d
  simp only [process_target, hd, he]
  cases hres : (run_all_tools e (o.tools d) d).2 <;>
    simp [hres, hne, List.mem_append, h]

/-- C5 counterexample: in the concrete run `o₃` the scan cycle for
`example.com` raises (the bbot line lacking the `data` field), the error
is caught and logged, and `last_scanned` is left at `none` — it is not
updated on a failed scan attempt. -/
theorem last_scanned_unchanged_on_error :
    (process_target e₀ o₃ fs₀ t₁).2.1.last_scanned = none ∧
    Effect.log "[!] Error scanning example.com: AttributeError" ∈
      (process_target e₀ o₃ fs₀ t₁).2.2 := by
  refine ⟨rfl, ?_⟩
  decide

/-- C5 amended: for an enabled target with a non-empty domain,
`last_scanned` is set to the run timestamp exactly when the scan cycle
completes without a caught error; when an error is caught during the
cycle the target (in particular `last_scanned`) is left unchanged. -/
theorem last_scanned_updated_only_on_success (e : ToolEnv) (o : Oracle) (fs : FS)
    (t : Target) (d : String) (hd : t.domain = some d) (hne : d ≠ "")
    (he : t.enabled = true) :
    ((∃ err, (run_all_tools e (o.tools d) d).2 = Except.error err) →
      (process_target e o fs t).2.1 = t) ∧
    (∀ cur, (run_all_tools e (o.tools d) d).2 = Except.ok cur →
      (process_target e o fs t).2.1.last_scanned = some (o.utcnow ++ "Z")) := by
  constructor
  · rintro ⟨err, herr⟩
    simp [process_target, hd, he, hne, herr]
  · intro cur hok
    simp [process_target, hd, he, hne, hok]

/-- Witness for C5 amended: the concrete failing run leaves the target
record untouched. -/
theorem last_scanned_updated_only_on_success_witness :
    (process_target e₀ o₃ fs₀ t₁).2.1 = t₁ :=
  (last_scanned_updated_only_on_success e₀ o₃ fs₀ t₁ "example.com" rfl (by decide) rfl).1
    ⟨"AttributeError", rfl⟩

/-- C2 counterexample: starting a run with the Target List file missing
does NOT stop at an error log: `create_sample_targets` first writes a
sample file whose `example.com` entry is enabled, and the run then scans
it — the trace contains four tool invocations, two snapshot-store
writes, and one notification attempt. -/
theorem missing_targets_file_scans_example_com :
    Effect.toolRun ["subfinder", "-silent", "-d", "example.com"] ∈
      (main_run e₀ o₀ TargetsFile.missing fs₀).2.2 ∧
    ((main_run e₀ o₀ TargetsFile.missing fs₀).2.2.filter isToolRun).length = 4 ∧
    ((main_run e₀ o₀ TargetsFile.missing fs₀).2.2.filter isWriteFile).length = 2 ∧
    ((main_run e₀ o₀ TargetsFile.missing fs₀).2.2.filter isSendDocument).length = 1 := by
  decide

/-- C2 amended: when the Target List file is missing at run start, the
run auto-creates the sample file (with its enabled `example.com` entry)
and proceeds to scan it; the logged-error-and-no-side-effects behaviour
holds exactly when loading the Target List fails (malformed JSON): then
the trace is two status lines only — no tool invocation, no
snapshot-store write, no notification attempt — and neither the
filesystem nor the targets file is changed. -/
theorem targets_load_failure_no_side_effects (e : ToolEnv) (o : Oracle) (fs : FS) :
    (create_sample_targets TargetsFile.missing).1 = TargetsFile.valid sample_targets ∧
    Effect.toolRun (subfinderArgv e "example.com") ∈
      (main_run e o TargetsFile.missing fs).2.2 ∧
    (main_run e o TargetsFile.malformed fs).2.2 =
      [Effect.log "🔍 Starting subdomain reconnaissance...",
       Effect.log "[!] Invalid JSON in targets file"] ∧
    (main_run e o TargetsFile.malformed fs).2.1 = fs ∧
    (main_run e o TargetsFile.malformed fs).1 = TargetsFile.malformed := by
  refine ⟨rfl, ?_, rfl, rfl, rfl⟩
  have h := process_target_toolRun e o fs sample_target "example.com" rfl
    (by decide) rfl
  simp [main_run, create_sample_targets, sample_targets, scanStep,
    List.mem_append, h]




